import Mathlib

/-!
Verification of the student-portal backend (`src/server.js`, the GridFS
variant, and `src/backend/server.js`, the filesystem variant) against its
natural-language specification.

The two Express servers are shallowly embedded as pure Lean functions over
explicit state:
* MongoDB collections become Lean lists of records;
* the GridFS bucket becomes an association list from blob ids to byte lists;
* the local filesystem becomes an association list from paths to byte lists
  (all modelled entries are regular files; directories are not modelled, so
  the `stats.isFile()` guard of `src/server.js` is true for every existing
  modelled path), plus a set of paths whose `fs.unlinkSync` throws;
* JavaScript string truthiness (`undefined`/`null`/`""` are falsy) is
  modelled on `Option String`;
* multer's `fileFilter`/`limits` gate is embedded from the shared config of
  both servers (`src/server.js:96-109`, `src/backend/server.js:62-76`).

Header details other than the Content-Disposition kind and the filename are
elided from responses (e.g. the Content-Type express infers for
`res.download` is framework behaviour, not repository code).
-/

namespace StudentPortal

/-- JavaScript truthiness for an optional string field: `undefined`, `null`
and the empty string are falsy. Returns the string when truthy. -/
def jsStr : Option String → Option String
  | none => none
  | some s => if s = "" then none else some s

/-- `a || b` for JavaScript strings: `b` when `a` is falsy. -/
def jsOr (a b : String) : String :=
  if a = "" then b else a

/-- `a || b` where `a` is an optional string field. -/
def jsOrOpt (a : Option String) (b : String) : String :=
  match jsStr a with
  | some s => s
  | none => b

/-- One document of the shared Material/Question/Update schema
(`src/server.js:143-156`, `src/backend/server.js:118-130`). The `fileId`
field exists only in the GridFS variant's schema; records of the filesystem
variant always have `fileId = none`. Mongo `_id`s are modelled as `Nat`. -/
structure ContentRecord where
  id : Nat
  title : Option String := none
  description : Option String := none
  year : Option String := none
  department : Option String := none
  fileName : Option String := none
  originalFileName : Option String := none
  filePath : Option String := none
  fileSize : Nat := 0
  fileType : Option String := none
  fileId : Option Nat := none
  createdBy : Option String := none
  deriving Repr, DecidableEq

/-- The three content collections sharing one schema: `Material`,
`Question`, `Update` (`src/server.js:176-178`). -/
structure ContentStore where
  materials : List ContentRecord := []
  questions : List ContentRecord := []
  updates : List ContentRecord := []
  deriving Repr, DecidableEq

/-- The three content kinds (same schema, different collection). -/
inductive Kind where
  | material
  | question
  | update
  deriving Repr, DecidableEq

/-- The collection a kind is stored in. -/
def ContentStore.coll (cs : ContentStore) : Kind → List ContentRecord
  | .material => cs.materials
  | .question => cs.questions
  | .update => cs.updates

/-- Replace the collection of one kind. -/
def ContentStore.setColl (cs : ContentStore) : Kind → List ContentRecord → ContentStore
  | .material, l => { cs with materials := l }
  | .question, l => { cs with questions := l }
  | .update, l => { cs with updates := l }

/-- Capitalised kind name as used in response messages
("Material not found", "Question deleted successfully", ...). -/
def Kind.name : Kind → String
  | .material => "Material"
  | .question => "Question"
  | .update => "Update"

/-- `Model.findById`: the unique document with the given `_id`, if any. -/
def findById (l : List ContentRecord) (i : Nat) : Option ContentRecord :=
  l.find? (fun r => r.id == i)

/-- `Model.findByIdAndDelete`: remove the document with the given `_id`
(Mongo `_id`s are unique within a collection). -/
def removeById (l : List ContentRecord) (i : Nat) : List ContentRecord :=
  l.filter (fun r => r.id != i)

/-- The id-resolution shared by download and view (`src/server.js:587-589`,
`src/backend/server.js:536-542`): try `Material.findById`, then
`Question.findById`, then `Update.findById`; first match wins. -/
def resolveContent (cs : ContentStore) (i : Nat) : Option ContentRecord :=
  match findById cs.materials i with
  | some r => some r
  | none =>
    match findById cs.questions i with
    | some r => some r
    | none => findById cs.updates i

/-- The local filesystem: regular files with contents, plus the set of
paths whose `fs.unlinkSync` throws when attempted. -/
structure FileSys where
  files : List (String × List Nat) := []
  unlinkFails : List String := []
  deriving Repr, DecidableEq

/-- `fs.existsSync`. -/
def FileSys.existsSync (fs : FileSys) (p : String) : Bool :=
  (fs.files.lookup p).isSome

/-- Contents of an existing file (used by the streaming endpoints). -/
def FileSys.readFile (fs : FileSys) (p : String) : List Nat :=
  (fs.files.lookup p).getD []

/-- `fs.unlinkSync` wrapped in `try { ... } catch(e) { /* ignore */ }`
(`src/server.js:916`): a throwing unlink leaves the filesystem unchanged
and the failure is swallowed. -/
def FileSys.unlinkTry (fs : FileSys) (p : String) : FileSys :=
  if p ∈ fs.unlinkFails then fs
  else { fs with files := fs.files.filter (fun e => e.1 != p) }

/-- Bare `fs.unlinkSync` (`src/backend/server.js:800`): `none` models the
call throwing, which propagates to the route's outer catch. -/
def FileSys.unlinkSyncRes (fs : FileSys) (p : String) : Option FileSys :=
  if p ∈ fs.unlinkFails then none
  else some { fs with files := fs.files.filter (fun e => e.1 != p) }

/-- One file part of a multipart upload as multer presents it. -/
structure UploadFile where
  originalname : String
  bytes : List Nat
  mimetype : String := "application/octet-stream"
  deriving Repr, DecidableEq

/-- The form fields of an upload request
(`title, description, year, department, createdBy`). -/
structure UploadBody where
  title : Option String := none
  description : Option String := none
  year : Option String := none
  department : Option String := none
  createdBy : Option String := none
  deriving Repr, DecidableEq

/-- The extension allow-list of the multer `fileFilter` regex
`\.(pdf|doc|docx|ppt|pptx|xls|xlsx|txt|jpg|jpeg|png|gif|mp4|mp3|zip|rar)$/i`
(`src/server.js:102`, `src/backend/server.js:69`). -/
def allowedExtensions : List String :=
  ["pdf", "doc", "docx", "ppt", "pptx", "xls", "xlsx", "txt",
   "jpg", "jpeg", "png", "gif", "mp4", "mp3", "zip", "rar"]

/-- The `fileFilter` check: the regex matches iff the lowercased name ends
in a dot followed by one of the allowed extensions (the `/i` flag makes the
match case-insensitive; every alternative is plain lowercase ASCII).
Lowercasing and the suffix test are carried out on the character list of
the name. -/
def fileFilterAccepts (name : String) : Bool :=
  allowedExtensions.any
    (fun e => (("." ++ e).data).isSuffixOf (name.data.map Char.toLower))

/-- `limits.fileSize`: the 50 MB ceiling of both servers
(`src/server.js:99`, `src/backend/server.js:65`). -/
def fileSizeLimit : Nat := 50 * 1024 * 1024

/-- Outcome of an upload request. `missingFile` is the handler's own
`res.status(400).json({success:false, message:'No file uploaded'})`;
`rejected` is the multer `fileFilter`/`limits` refusal (the error multer
hands to the framework's error path before any handler code runs);
`created` carries the stored record echoed in the 200 response. -/
inductive UploadResult where
  | missingFile
  | rejected (message : String)
  | created (record : ContentRecord)
  deriving Repr, DecidableEq

/-- The HTTP status the repository's own code assigns: 400 for the missing
file check, 200 for success. The status of a multer rejection is assigned
by framework middleware outside this repository, hence `none`. -/
def UploadResult.status : UploadResult → Option Nat
  | .missingFile => some 400
  | .rejected _ => none
  | .created _ => some 200

/-- The `success` flag of the JSON body (a multer rejection never reaches
the handler, so it never produces a `success:true` body). -/
def UploadResult.success : UploadResult → Bool
  | .created _ => true
  | _ => false

/-- Response of the download/view endpoints. `stream` is a 200 carrying
the disposition kind (`attachment` or `inline`), the filename placed in
the Content-Disposition header, and the streamed bytes. -/
inductive FileResponse where
  | notFound (message : String)
  | serverError (message : String)
  | stream (disposition : String) (filename : String) (bytes : List Nat)
  deriving Repr, DecidableEq

/-- HTTP status of a retrieval response. -/
def FileResponse.status : FileResponse → Nat
  | .notFound _ => 404
  | .serverError _ => 500
  | .stream _ _ _ => 200

/-- Response of the content delete endpoints. -/
inductive DeleteResponse where
  | notFound (message : String)
  | ok (message : String)
  | serverError (message : String)
  deriving Repr, DecidableEq

/-- HTTP status of a delete response. -/
def DeleteResponse.status : DeleteResponse → Nat
  | .notFound _ => 404
  | .ok _ => 200
  | .serverError _ => 500

/-- The Content-Disposition filename:
`content.originalFileName || content.fileName || 'file'`
(`src/server.js:604,653`). -/
def dispName (c : ContentRecord) : String :=
  jsOrOpt c.originalFileName (jsOrOpt c.fileName "file")

namespace GridFS

/-!
Embedding of `src/server.js`: uploads go to a GridFS bucket via
multer-gridfs-storage; download/view stream from GridFS when `fileId` is
set, falling back to the local filesystem only when a valid `filePath`
points at an existing file.
-/

/-- Server state of `src/server.js`: the three content collections, the
GridFS `uploads` bucket contents (blob id to bytes), whether the global
`gfsBucket` variable has been initialized by the connection callback
(`src/server.js:42-49`), the local filesystem seen by the legacy fallback,
and a counter standing in for Mongo/GridFS id generation. -/
structure GState where
  content : ContentStore := {}
  bucket : List (Nat × List Nat) := []
  bucketInit : Bool := true
  fs : FileSys := {}
  nextId : Nat := 0
  deriving Repr, DecidableEq

/-- The collision-resistant GridFS filename
`` `${Date.now()}-${Math.round(Math.random()*1E9)}-${file.originalname}` ``
(`src/server.js:83`), with the timestamp/random pair modelled by the
server's id counter. -/
def gridFilename (n : Nat) (orig : String) : String :=
  toString n ++ "-" ++ orig

/-- `POST /api/materials/upload`, `/api/questions/upload`,
`/api/updates/upload` (`src/server.js:509-544,685-718,746-779`; the three
handlers are line-identical apart from the target collection and message).
multer runs first: with no file part it stores nothing and the handler
returns 400; a name failing `fileFilter` or a body over `limits.fileSize`
is rejected with nothing persisted; otherwise multer-gridfs-storage writes
the bytes to the bucket and the handler saves a record with
`filePath: null` and `fileId` set to the new blob id. -/
def uploadContent (k : Kind) (st : GState) (body : UploadBody)
    (file? : Option UploadFile) : GState × UploadResult :=
  match file? with
  | none => (st, .missingFile)
  | some f =>
    if fileFilterAccepts f.originalname then
      if f.bytes.length ≤ fileSizeLimit then
        let fid := st.nextId
        let fname := gridFilename st.nextId f.originalname
        let r : ContentRecord := {
          id := st.nextId + 1
          title := body.title
          description := body.description
          year := body.year
          department := body.department
          createdBy := body.createdBy
          fileName := some fname
          originalFileName := some f.originalname
          filePath := none
          fileSize := f.bytes.length
          fileType := some (jsOr f.mimetype "application/octet-stream")
          fileId := some fid }
        ({ st with
            bucket := st.bucket ++ [(fid, f.bytes)]
            content := st.content.setColl k (st.content.coll k ++ [r])
            nextId := st.nextId + 2 }, .created r)
      else (st, .rejected "File too large")
    else (st, .rejected "Invalid file type. Please upload educational content files.")

/-- The shared body of `GET /api/files/download/:id` and
`GET /api/files/view/:id` (`src/server.js:583-627,633-680`): resolve the
id across the three kinds; a truthy `fileId` streams from GridFS (500 if
the bucket variable is uninitialized, 404 if the blob id dangles); else a
truthy `filePath` naming an existing regular file is streamed; else 404. -/
def retrieve (disp : String) (st : GState) (i : Nat) : FileResponse :=
  match resolveContent st.content i with
  | none => .notFound "File not found"
  | some c =>
    match c.fileId with
    | some fid =>
      if st.bucketInit then
        match st.bucket.lookup fid with
        | some bytes => .stream disp (dispName c) bytes
        | none => .notFound "File not found on server"
      else .serverError "GridFS bucket not initialized"
    | none =>
      match jsStr c.filePath with
      | some p =>
        if st.fs.existsSync p then
          .stream disp (jsOrOpt c.originalFileName (jsOrOpt c.fileName ""))
            (st.fs.readFile p)
        else .notFound "File not found on server"
      | none => .notFound "File not found on server"

/-- `GET /api/files/download/:id`: attachment disposition. -/
def download (st : GState) (i : Nat) : FileResponse :=
  retrieve "attachment" st i

/-- `GET /api/files/view/:id`: inline disposition. -/
def view (st : GState) (i : Nat) : FileResponse :=
  retrieve "inline" st i

/-- `deleteGridFSFileById` (`src/server.js:892-904`): a falsy id returns
immediately; an uninitialized bucket variable logs a warning and returns;
otherwise `gfsBucket.delete` runs with any error (including "file not
found" for an already-absent blob) caught and logged. The caller always
proceeds. -/
def deleteGridFSFileById (init : Bool) (bucket : List (Nat × List Nat))
    (fid : Option Nat) : List (Nat × List Nat) :=
  match fid with
  | none => bucket
  | some f =>
    if init then bucket.filter (fun e => e.1 != f)
    else bucket

/-- `DELETE /api/materials/:id`, `/api/questions/:id`, `/api/updates/:id`
(`src/server.js:906-964`; line-identical apart from collection and
message): 404 when the id is absent; else best-effort blob cleanup (GridFS
when `fileId` is truthy, otherwise a try/catch-guarded unlink of an
existing `filePath`), then `findByIdAndDelete`, then a 200 success. -/
def deleteContent (k : Kind) (st : GState) (i : Nat) : GState × DeleteResponse :=
  match findById (st.content.coll k) i with
  | none => (st, .notFound (k.name ++ " not found"))
  | some m =>
    let st' :=
      if m.fileId.isSome then
        { st with bucket := deleteGridFSFileById st.bucketInit st.bucket m.fileId }
      else
        match jsStr m.filePath with
        | some p =>
          if st.fs.existsSync p then { st with fs := st.fs.unlinkTry p } else st
        | none => st
    ({ st' with content := st'.content.setColl k (removeById (st'.content.coll k) i) },
      .ok (k.name ++ " deleted successfully"))

end GridFS

namespace FsBackend

/-!
Embedding of `src/backend/server.js`: uploads go to the local `uploads/`
directory via `multer.diskStorage`; download/view serve from the
filesystem, deriving the path from `filePath` or, when that is falsy, from
`uploadsDir` joined with the stored `fileName`.
-/

/-- The uploads directory (`path.join(__dirname, 'uploads')`,
`src/backend/server.js:42`). -/
def uploadsDir : String := "uploads"

/-- Server state of `src/backend/server.js`. -/
structure FState where
  content : ContentStore := {}
  fs : FileSys := {}
  nextId : Nat := 0
  deriving Repr, DecidableEq

/-- `path.extname(file.originalname)`: the final dotted extension, empty
when the name has no dot. -/
def extname (s : String) : String :=
  let parts := s.splitOn "."
  if parts.length ≤ 1 then "" else "." ++ parts.getLastD ""

/-- The unique disk filename
`Date.now() + '-' + Math.round(Math.random()*1E9) + path.extname(originalname)`
(`src/backend/server.js:57`), with the timestamp/random pair modelled by
the server's id counter. -/
def diskFilename (n : Nat) (orig : String) : String :=
  toString n ++ extname orig

/-- `POST /api/materials/upload`, `/api/questions/upload`,
`/api/updates/upload` (`src/backend/server.js:470-496,604-630,656-682`;
line-identical apart from collection and message). multer's diskStorage
writes the bytes under `uploadsDir` before the handler runs; the handler
saves a record with `filePath` set to the written path (the schema has no
`fileId`). -/
def uploadContent (k : Kind) (st : FState) (body : UploadBody)
    (file? : Option UploadFile) : FState × UploadResult :=
  match file? with
  | none => (st, .missingFile)
  | some f =>
    if fileFilterAccepts f.originalname then
      if f.bytes.length ≤ fileSizeLimit then
        let fname := diskFilename st.nextId f.originalname
        let fpath := uploadsDir ++ "/" ++ fname
        let r : ContentRecord := {
          id := st.nextId + 1
          title := body.title
          description := body.description
          year := body.year
          department := body.department
          createdBy := body.createdBy
          fileName := some fname
          originalFileName := some f.originalname
          filePath := some fpath
          fileSize := f.bytes.length
          fileType := some f.mimetype
          fileId := none }
        ({ st with
            fs := { st.fs with files := st.fs.files ++ [(fpath, f.bytes)] }
            content := st.content.setColl k (st.content.coll k ++ [r])
            nextId := st.nextId + 2 }, .created r)
      else (st, .rejected "File too large")
    else (st, .rejected "Invalid file type. Please upload educational content files.")

/-- The shared body of `GET /api/files/download/:id` and
`GET /api/files/view/:id` (`src/backend/server.js:531-601`): resolve the
id across the three kinds; 404 when `fileName` is falsy; derive the path
as `content.filePath || path.join(uploadsDir, content.fileName)`; 404 when
that path does not exist; else stream the file. -/
def retrieve (disp : String) (st : FState) (i : Nat) : FileResponse :=
  match resolveContent st.content i with
  | none => .notFound "File not found"
  | some c =>
    match jsStr c.fileName with
    | none => .notFound "No file attached to this content"
    | some fname =>
      let fpath := (jsStr c.filePath).getD (uploadsDir ++ "/" ++ fname)
      if st.fs.existsSync fpath then
        .stream disp (jsOrOpt c.originalFileName fname) (st.fs.readFile fpath)
      else .notFound "File not found on server"

/-- `GET /api/files/download/:id`: attachment disposition. -/
def download (st : FState) (i : Nat) : FileResponse :=
  retrieve "attachment" st i

/-- `GET /api/files/view/:id`: inline disposition. -/
def view (st : FState) (i : Nat) : FileResponse :=
  retrieve "inline" st i

/-- `DELETE /api/materials/:id`, `/api/questions/:id`, `/api/updates/:id`
(`src/backend/server.js:791-846`; line-identical apart from collection and
message): 404 when the id is absent; else a truthy `filePath` naming an
existing file is unlinked with no try/catch of its own, so a throwing
unlink propagates to the route's outer catch and answers 500 with the
metadata record left in place; otherwise `findByIdAndDelete` then 200. -/
def deleteContent (k : Kind) (st : FState) (i : Nat) : FState × DeleteResponse :=
  match findById (st.content.coll k) i with
  | none => (st, .notFound (k.name ++ " not found"))
  | some m =>
    match jsStr m.filePath with
    | some p =>
      if st.fs.existsSync p then
        match st.fs.unlinkSyncRes p with
        | none => (st, .serverError "unlink failed")
        | some fs' =>
          ({ st with
              fs := fs'
              content := st.content.setColl k (removeById (st.content.coll k) i) },
            .ok (k.name ++ " deleted successfully"))
      else
        ({ st with content := st.content.setColl k (removeById (st.content.coll k) i) },
          .ok (k.name ++ " deleted successfully"))
    | none =>
      ({ st with content := st.content.setColl k (removeById (st.content.coll k) i) },
        .ok (k.name ++ " deleted successfully"))

end FsBackend

namespace People

/-!
Embedding of the person-record routes. The Student, Faculty and Admin
routes are structurally identical in both servers (`src/server.js:226-313,
316-504`, `src/backend/server.js:181-270,273-467`), differing only in the
collection and the noun used in messages ("Student"/"Faculty"/"Admin"),
so they are embedded once, parametrised by that noun (`label`).

A person collection is modelled by the list of `userId`s it holds — the
`userId` field carries the unique index and is the only field the claims
inspect. A `Model.save` can fail for reasons other than the unique index
(a backend write error); that possibility is injected per item through the
`saveError` flag, since it originates outside the repository's code.
-/

/-- One submitted person record: its `userId` plus whether the backend
write fails with a non-duplicate error when this record is saved. -/
structure BulkItem where
  userId : String
  saveError : Bool := false
  deriving Repr, DecidableEq

/-- A person collection: the `userId`s currently stored (the unique index
guarantees no two documents share a `userId`). -/
abbrev PersonStore := List String

/-- A JSON reply of the person routes. -/
structure SimpleResponse where
  status : Nat
  success : Bool
  message : Option String := none
  deletedCount : Option Nat := none
  deriving Repr, DecidableEq

/-- `POST /api/students` / `/api/faculty` / `/api/admin`
(`src/server.js:226-238,316-328,422-434`): `save` throws code 11000 when
the `userId` hits the unique index, answered as a 200 soft failure; any
other save error is answered 500; otherwise the record is stored. -/
def postPerson (label : String) (st : PersonStore) (it : BulkItem) :
    PersonStore × SimpleResponse :=
  if it.saveError then
    (st, { status := 500, success := false, message := some "save failed" })
  else if it.userId ∈ st then
    (st, { status := 200, success := false,
           message := some (label ++ " ID already exists") })
  else
    (it.userId :: st, { status := 200, success := true })

/-- Accumulated outcome of the bulk-insert loop. -/
structure BulkOutcome where
  store : PersonStore
  addedCount : Nat
  duplicates : List String
  results : List String
  deriving Repr, DecidableEq

/-- The loop body of `POST /api/students/bulk` / `/api/faculty/bulk` /
`/api/admin/bulk` (`src/server.js:254-278,339-363,445-469`): each item is
saved inside its own try/catch; a successful save is pushed to `results`
and counted in `addedCount`; a save failing with code 11000 pushes the
item's `userId` to `duplicates`; any other save error is swallowed by the
catch and the loop continues. -/
def bulkRun (st : PersonStore) : List BulkItem → BulkOutcome
  | [] => { store := st, addedCount := 0, duplicates := [], results := [] }
  | it :: rest =>
    if it.saveError then
      bulkRun st rest
    else if it.userId ∈ st then
      let o := bulkRun st rest
      { o with duplicates := it.userId :: o.duplicates }
    else
      let o := bulkRun (it.userId :: st) rest
      { o with addedCount := o.addedCount + 1, results := it.userId :: o.results }

/-- The JSON body of the bulk-insert reply:
`res.json({ success: true, addedCount, duplicates, data: results })`. -/
structure BulkResponse where
  status : Nat := 200
  success : Bool := true
  addedCount : Nat
  duplicates : List String
  results : List String
  deriving Repr, DecidableEq

/-- The whole bulk-insert endpoint: run the loop, then answer 200 with
`success:true` unconditionally. -/
def bulkInsert (st : PersonStore) (items : List BulkItem) :
    PersonStore × BulkResponse :=
  let o := bulkRun st items
  (o.store, { addedCount := o.addedCount, duplicates := o.duplicates,
              results := o.results })

/-- `DELETE /api/students/delete/individual` (likewise faculty/admin;
`src/server.js:295-313,401-419,486-504`): a falsy `userId` query parameter
is a 400; `deleteOne({userId})` removes the single matching document;
`deletedCount > 0` answers success, otherwise a 200 with `success:false`
and a "... not found" message. -/
def deleteIndividual (label : String) (st : PersonStore)
    (userId? : Option String) : PersonStore × SimpleResponse :=
  match jsStr userId? with
  | none =>
    (st, { status := 400, success := false, message := some "User ID is required" })
  | some u =>
    if u ∈ st then
      (st.erase u, { status := 200, success := true, deletedCount := some 1 })
    else
      (st, { status := 200, success := false,
             message := some (label ++ " not found") })

end People

/-!
Properties and sample inputs used by the verification theorems below.
-/

/-- The spec's `BlobReference` exclusivity for one record: exactly one of
the blob-store id (`fileId`) and the filesystem path (`filePath`, under
JavaScript truthiness) is populated. -/
def exclusiveRef (r : ContentRecord) : Prop :=
  (r.fileId.isSome = true ∧ jsStr r.filePath = none)
  ∨ (r.fileId = none ∧ (jsStr r.filePath).isSome = true)

/-- The exclusivity invariant over a whole content store: every record of
every kind carrying an attached file (a truthy stored `fileName`) has
exactly one blob-reference variant populated. -/
def ExclusiveInv (cs : ContentStore) : Prop :=
  ∀ k : Kind, ∀ r ∈ cs.coll k, (jsStr r.fileName).isSome = true → exclusiveRef r

/-- Sample material used to exercise the resolution order. -/
def c1SampleRecord : ContentRecord := { id := 1, fileName := some "m.pdf" }

/-- Sample store holding `c1SampleRecord` among the materials. -/
def c1SampleStore : ContentStore :=
  { materials := [c1SampleRecord], questions := [{ id := 2 }] }

/-- A record with no blob-store id and no filesystem path, but a stored
`fileName` (creatable through `POST /api/materials`, which saves the raw
request body, `src/backend/server.js:498-506`). -/
def c2CexRecord : ContentRecord := { id := 1, fileName := some "notes.txt" }

/-- Filesystem-backend state holding `c2CexRecord` while the uploads
directory happens to contain a file of that name. -/
def c2CexState : FsBackend.FState :=
  { content := { materials := [c2CexRecord] }
    fs := { files := [("uploads/notes.txt", [104, 105])] } }

/-- An upload whose name passes the extension gate only case-insensitively. -/
def c3GoodFile : UploadFile := { originalname := "Week1.PDF", bytes := [1, 2, 3] }

/-- An upload whose name fails the extension gate. -/
def c3BadFile : UploadFile := { originalname := "malware.exe", bytes := [1, 2, 3] }

/-- A material holding a blob-store reference. -/
def c4SampleRecordG : ContentRecord :=
  { id := 1, fileName := some "a.pdf", fileId := some 7 }

/-- GridFS state holding `c4SampleRecordG` with its blob in the bucket. -/
def c4SampleG : GridFS.GState :=
  { content := { materials := [c4SampleRecordG] }, bucket := [(7, [1, 2])] }

/-- A material whose filesystem blob is already absent. -/
def c4SampleRecordF : ContentRecord :=
  { id := 1, fileName := some "b.pdf", filePath := some "uploads/b.pdf" }

/-- Filesystem-backend state holding `c4SampleRecordF` with no such file
on disk. -/
def c4SampleF : FsBackend.FState := { content := { materials := [c4SampleRecordF] } }

/-- A material whose filesystem blob exists but cannot be unlinked. -/
def c4CexRecord : ContentRecord :=
  { id := 1, fileName := some "c.pdf", filePath := some "uploads/c.pdf" }

/-- Filesystem-backend state where unlinking `c4CexRecord`'s blob throws. -/
def c4CexState : FsBackend.FState :=
  { content := { materials := [c4CexRecord] }
    fs := { files := [("uploads/c.pdf", [1])], unlinkFails := ["uploads/c.pdf"] } }

/-- A bulk batch with distinct `userId`s, one of which collides with the
pre-existing store `["s1"]`. -/
def c5Items : List People.BulkItem :=
  [{ userId := "s1" }, { userId := "s2" }, { userId := "s3" }]

/-- An upload used to exercise the exclusivity invariant. -/
def c8File : UploadFile := { originalname := "a.pdf", bytes := [1] }

/-- A bulk batch whose second item fails with a non-duplicate write error. -/
def c9Items : List People.BulkItem :=
  [{ userId := "a" }, { userId := "b", saveError := true }, { userId := "a" }]

/-!
Helper lemmas.
-/

/-- After `findByIdAndDelete`, `findById` no longer sees the id. -/
theorem findById_removeById (l : List ContentRecord) (i : Nat) :
    findById (removeById l i) i = none := by
  induction l with
  | nil => rfl
  | cons r l ih =>
    by_cases h : r.id = i
    · simp only [findById, removeById] at ih
      simp [findById, removeById, List.filter_cons, h, ih]
    · have hb : (r.id == i) = false := by simp [h]
      simp only [findById, removeById] at ih
      simp [findById, removeById, List.filter_cons, bne, hb, ih]

/-- `setColl` read back at any kind. -/
theorem coll_setColl (cs : ContentStore) (k k' : Kind) (l : List ContentRecord) :
    (cs.setColl k l).coll k' = if k' = k then l else cs.coll k' := by
  cases k <;> cases k' <;> simp [ContentStore.setColl, ContentStore.coll]

/-- Resolution fails exactly when every collection lacks the id. -/
theorem resolveContent_eq_none_of (cs : ContentStore) (i : Nat)
    (h : ∀ k, findById (cs.coll k) i = none) : resolveContent cs i = none := by
  have hm := h .material
  have hq := h .question
  have hu := h .update
  simp [ContentStore.coll] at hm hq hu
  simp [resolveContent, hm, hq, hu]

/-- Deleting a blob id from the bucket makes its lookup dangle. -/
theorem lookup_filter_ne (l : List (Nat × List Nat)) (fid : Nat) :
    (l.filter (fun e => e.1 != fid)).lookup fid = none := by
  induction l with
  | nil => rfl
  | cons e l ih =>
    by_cases h : e.1 = fid
    · simpa [List.filter_cons, h] using ih
    · have hb : (fid == e.1) = false := by simp [Ne.symm h]
      have hb' : (e.1 == fid) = false := by simp [h]
      simpa [List.filter_cons, bne, hb', List.lookup, hb] using ih

/-- A GridFS-variant delete that finds its record removes exactly that
record from its collection; the blob cleanup never touches the metadata
collections. -/
theorem gridfs_deleteContent_content (k : Kind) (g : GridFS.GState) (i : Nat)
    (m : ContentRecord) (hm : findById (g.content.coll k) i = some m) :
    (GridFS.deleteContent k g i).1.content
      = g.content.setColl k (removeById (g.content.coll k) i) := by
  simp only [GridFS.deleteContent, hm]
  by_cases hf : m.fileId.isSome
  · simp [hf]
  · simp only [hf]
    cases hp : jsStr m.filePath with
    | none => simp
    | some p => by_cases he : g.fs.existsSync p <;> simp [he]

/-- A GridFS-variant delete that finds its record always reports success,
whatever the bucket state. -/
theorem gridfs_deleteContent_resp (k : Kind) (g : GridFS.GState) (i : Nat)
    (m : ContentRecord) (hm : findById (g.content.coll k) i = some m) :
    (GridFS.deleteContent k g i).2 = .ok (k.name ++ " deleted successfully") := by
  simp [GridFS.deleteContent, hm]

/-- When the deleted record carried a blob-store id and the bucket is
available, the blob is gone afterwards. -/
theorem gridfs_deleteContent_bucket (k : Kind) (g : GridFS.GState) (i fid : Nat)
    (m : ContentRecord) (hm : findById (g.content.coll k) i = some m)
    (hfid : m.fileId = some fid) (hinit : g.bucketInit = true) :
    ((GridFS.deleteContent k g i).1).bucket.lookup fid = none := by
  simp only [GridFS.deleteContent, hm, hfid]
  simp [GridFS.deleteGridFSFileById, hinit, lookup_filter_ne]

/-- A filesystem-variant delete either leaves the content store unchanged
(miss, or the 500 on a throwing unlink) or removes exactly the found
record. -/
theorem fsbackend_deleteContent_content_or (k : Kind) (f : FsBackend.FState)
    (i : Nat) :
    (FsBackend.deleteContent k f i).1.content = f.content
    ∨ (FsBackend.deleteContent k f i).1.content
        = f.content.setColl k (removeById (f.content.coll k) i) := by
  cases hm : findById (f.content.coll k) i with
  | none => exact Or.inl (by simp [FsBackend.deleteContent, hm])
  | some m =>
    simp only [FsBackend.deleteContent, hm]
    cases hp : jsStr m.filePath with
    | none => exact Or.inr (by simp)
    | some p =>
      by_cases he : f.fs.existsSync p
      · cases hu : f.fs.unlinkSyncRes p with
        | none => exact Or.inl (by simp [he, hu])
        | some fs' => exact Or.inr (by simp [he, hu])
      · exact Or.inr (by simp [he])

/-- A filesystem-variant delete whose record's blob is already absent
(falsy `filePath`, or a path that no longer exists) reports success and
removes the record. -/
theorem fsbackend_delete_ok_of_absent (k : Kind) (f : FsBackend.FState) (i : Nat)
    (m' : ContentRecord) (hm : findById (f.content.coll k) i = some m')
    (habs : ∀ p, jsStr m'.filePath = some p → f.fs.existsSync p = false) :
    (FsBackend.deleteContent k f i).2 = .ok (k.name ++ " deleted successfully")
    ∧ (FsBackend.deleteContent k f i).1.content
        = f.content.setColl k (removeById (f.content.coll k) i) := by
  simp only [FsBackend.deleteContent, hm]
  cases hp : jsStr m'.filePath with
  | none => simp
  | some p => simp [habs p hp]

/-!
Claim theorems.
-/

/-- C1: for every retrieval request (download or view) with a content id,
the id is resolved against the three content kinds in the fixed order
materials, then question banks, then updates, and the first matching
record wins; if no kind contains the id, the result is NotFound (404). -/
theorem c1_retrieval_resolution_order (cs : ContentStore) (g : GridFS.GState)
    (f : FsBackend.FState) (i : Nat) :
    (∀ r, findById cs.materials i = some r → resolveContent cs i = some r)
    ∧ (findById cs.materials i = none →
        ∀ r, findById cs.questions i = some r → resolveContent cs i = some r)
    ∧ (findById cs.materials i = none → findById cs.questions i = none →
        resolveContent cs i = findById cs.updates i)
    ∧ (resolveContent g.content i = none →
        (GridFS.download g i).status = 404 ∧ (GridFS.view g i).status = 404)
    ∧ (resolveContent f.content i = none →
        (FsBackend.download f i).status = 404 ∧ (FsBackend.view f i).status = 404) := by
  refine ⟨?_, ?_, ?_, ?_, ?_⟩
  · intro r h
    simp [resolveContent, h]
  · intro h1 r h2
    simp [resolveContent, h1, h2]
  · intro h1 h2
    simp [resolveContent, h1, h2]
  · intro h
    constructor <;>
      simp [GridFS.download, GridFS.view, GridFS.retrieve, h, FileResponse.status]
  · intro h
    constructor <;>
      simp [FsBackend.download, FsBackend.view, FsBackend.retrieve, h,
        FileResponse.status]

/-- Witness for C1 at concrete inputs: a material id resolves to the
material record, and an id present nowhere yields 404. -/
theorem c1_retrieval_resolution_order_witness :
    resolveContent c1SampleStore 1 = some c1SampleRecord
    ∧ (GridFS.download ({} : GridFS.GState) 5).status = 404 := by
  have h := c1_retrieval_resolution_order c1SampleStore {} {} 1
  have h5 := c1_retrieval_resolution_order c1SampleStore {} {} 5
  exact ⟨h.1 c1SampleRecord rfl, (h5.2.2.2.1 rfl).1⟩

/-- C2 counterexample: a content record with no blob-store id and no
filesystem path (only a stored `fileName`) for which the filesystem
backend's download answers 200, because the path is derived as
`uploadsDir/fileName` and such a file exists — the claim's required
NotFound does not hold. -/
theorem c2_counterexample :
    c2CexRecord.fileId = none ∧ c2CexRecord.filePath = none
    ∧ resolveContent c2CexState.content 1 = some c2CexRecord
    ∧ (FsBackend.download c2CexState 1).status = 200 := by
  refine ⟨rfl, rfl, rfl, rfl⟩

/-- C2 (amended): a resolved record with no blob-store id and no
filesystem path yields 404 from both download and view in the GridFS
implementation; in the filesystem implementation the same holds provided
the record also has no stored `fileName`, because a truthy `fileName` is
resolved against the uploads directory as a fallback path. -/
theorem c2_no_fileref_not_found (g : GridFS.GState) (f : FsBackend.FState)
    (i : Nat) (c c' : ContentRecord) :
    (resolveContent g.content i = some c → c.fileId = none → c.filePath = none →
      (GridFS.download g i).status = 404 ∧ (GridFS.view g i).status = 404)
    ∧ (resolveContent f.content i = some c' → jsStr c'.fileName = none →
      (FsBackend.download f i).status = 404 ∧ (FsBackend.view f i).status = 404) := by
  constructor
  · intro hres hid hpath
    constructor <;>
      simp [GridFS.download, GridFS.view, GridFS.retrieve, hres, hid, hpath,
        jsStr, FileResponse.status]
  · intro hres hname
    constructor <;>
      simp [FsBackend.download, FsBackend.view, FsBackend.retrieve, hres, hname,
        FileResponse.status]

/-- Witness for C2 (amended) at concrete inputs: a record with neither
reference variant nor a stored name is 404 in both implementations. -/
theorem c2_no_fileref_not_found_witness :
    (GridFS.download
        { content := { materials := [{ id := 3 }] } } 3).status = 404
    ∧ (FsBackend.download
        { content := { materials := [{ id := 3 }] } } 3).status = 404 := by
  have h := c2_no_fileref_not_found
    { content := { materials := [{ id := 3 }] } }
    { content := { materials := [{ id := 3 }] } } 3 { id := 3 } { id := 3 }
  exact ⟨(h.1 rfl rfl rfl).1, (h.2 rfl rfl).1⟩

/-- C3: the multer gate of both servers caps files at the 50 MiB ceiling
and decides acceptance by matching the file name, case-insensitively,
against the sixteen-extension allow-list; a name failing the gate (or a
body over the ceiling) is rejected with the server state unchanged — no
blob is written and no metadata record is created — while a passing file
is stored. The HTTP status of a multer rejection is assigned by framework
middleware outside this repository; the rejection outcome itself, with
nothing persisted, is what the code determines. -/
theorem c3_upload_gate (k : Kind) (g : GridFS.GState) (f : FsBackend.FState)
    (body : UploadBody) (file : UploadFile) :
    fileSizeLimit = 50 * 1024 * 1024
    ∧ (fileFilterAccepts file.originalname = true ↔
        ∃ e ∈ allowedExtensions,
          (("." ++ e).data).isSuffixOf (file.originalname.data.map Char.toLower) = true)
    ∧ (fileFilterAccepts file.originalname = false →
        GridFS.uploadContent k g body (some file)
          = (g, .rejected "Invalid file type. Please upload educational content files.")
        ∧ FsBackend.uploadContent k f body (some file)
          = (f, .rejected "Invalid file type. Please upload educational content files."))
    ∧ (fileFilterAccepts file.originalname = true →
        fileSizeLimit < file.bytes.length →
        GridFS.uploadContent k g body (some file) = (g, .rejected "File too large")
        ∧ FsBackend.uploadContent k f body (some file) = (f, .rejected "File too large"))
    ∧ (fileFilterAccepts file.originalname = true →
        file.bytes.length ≤ fileSizeLimit →
        (∃ r, (GridFS.uploadContent k g body (some file)).2 = .created r)
        ∧ (∃ r, (FsBackend.uploadContent k f body (some file)).2 = .created r)) := by
  refine ⟨rfl, ?_, ?_, ?_, ?_⟩
  · simp [fileFilterAccepts, List.any_eq_true]
  · intro hrej
    constructor <;> simp [GridFS.uploadContent, FsBackend.uploadContent, hrej]
  · intro hacc hsize
    have hns : ¬ file.bytes.length ≤ fileSizeLimit := by omega
    constructor <;> simp [GridFS.uploadContent, FsBackend.uploadContent, hacc, hns]
  · intro hacc hsize
    constructor
    · simp only [GridFS.uploadContent]
      rw [if_pos hacc, if_pos hsize]
      exact ⟨_, rfl⟩
    · simp only [FsBackend.uploadContent]
      rw [if_pos hacc, if_pos hsize]
      exact ⟨_, rfl⟩

/-- Witness for C3 at concrete inputs: an upper-case `.PDF` name passes
the gate and is stored; an `.exe` name is rejected with the state
unchanged. -/
theorem c3_upload_gate_witness :
    (∃ r, (GridFS.uploadContent .material {} {} (some c3GoodFile)).2 = .created r)
    ∧ GridFS.uploadContent .material {} {} (some c3BadFile)
        = ({}, .rejected "Invalid file type. Please upload educational content files.") := by
  refine ⟨((c3_upload_gate .material {} {} {} c3GoodFile).2.2.2.2
    (by decide) (by decide)).1, ((c3_upload_gate .material {} {} {} c3BadFile).2.2.1
    (by decide)).1⟩

/-- C4 counterexample: a material whose filesystem blob exists but whose
unlink throws. The filesystem backend's delete (which wraps the unlink in
no try/catch of its own) answers 500 through the route's outer catch and
leaves the metadata record in place — the claim's "deletion succeeds even
if the blob deletion itself fails" does not hold there. -/
theorem c4_counterexample :
    (FsBackend.deleteContent .material c4CexState 1).2.status = 500
    ∧ findById ((FsBackend.deleteContent .material c4CexState 1).1.content.materials) 1
        = some c4CexRecord := ⟨rfl, rfl⟩

/-- C4 (amended): deleting a content record removes the blob (best-effort)
and then the metadata, so the record no longer resolves and a subsequent
download of the id is 404. In the GridFS implementation deletion reports
success even if the blob was already absent, the bucket handle is
uninitialized, or the blob delete fails (all swallowed); in the filesystem
implementation deletion succeeds when the blob is already absent, but a
throwing unlink aborts the request with 500 and keeps the metadata (see
the counterexample). -/
theorem c4_delete_blob_then_metadata (k : Kind) (g : GridFS.GState)
    (f : FsBackend.FState) (i fid : Nat) (m m' : ContentRecord) :
    (findById (g.content.coll k) i = some m → m.fileId = some fid →
        (GridFS.deleteContent k g i).2 = .ok (k.name ++ " deleted successfully")
        ∧ (GridFS.deleteContent k g i).2.status = 200
        ∧ findById ((GridFS.deleteContent k g i).1.content.coll k) i = none
        ∧ (g.bucketInit = true →
            ((GridFS.deleteContent k g i).1).bucket.lookup fid = none))
    ∧ (findById (g.content.coll k) i = some m → m.fileId = some fid →
        (∀ k', k' ≠ k → findById (g.content.coll k') i = none) →
        (GridFS.download (GridFS.deleteContent k g i).1 i).status = 404
        ∧ (GridFS.view (GridFS.deleteContent k g i).1 i).status = 404)
    ∧ (findById (f.content.coll k) i = some m' →
        (∀ p, jsStr m'.filePath = some p → f.fs.existsSync p = false) →
        (FsBackend.deleteContent k f i).2 = .ok (k.name ++ " deleted successfully")
        ∧ findById ((FsBackend.deleteContent k f i).1.content.coll k) i = none
        ∧ ((∀ k', k' ≠ k → findById (f.content.coll k') i = none) →
            (FsBackend.download (FsBackend.deleteContent k f i).1 i).status = 404)) := by
  refine ⟨?_, ?_, ?_⟩
  · intro hm hfid
    refine ⟨gridfs_deleteContent_resp k g i m hm, ?_, ?_, ?_⟩
    · rw [gridfs_deleteContent_resp k g i m hm]
      rfl
    · rw [gridfs_deleteContent_content k g i m hm, coll_setColl]
      simp [findById_removeById]
    · intro hinit
      exact gridfs_deleteContent_bucket k g i fid m hm hfid hinit
  · intro hm hfid hothers
    have hres : resolveContent (GridFS.deleteContent k g i).1.content i = none := by
      apply resolveContent_eq_none_of
      intro k'
      rw [gridfs_deleteContent_content k g i m hm, coll_setColl]
      by_cases hk : k' = k
      · simp [hk, findById_removeById]
      · simp [hk, hothers k' hk]
    constructor <;>
      simp [GridFS.download, GridFS.view, GridFS.retrieve, hres, FileResponse.status]
  · intro hm habs
    obtain ⟨hok, hcontent⟩ := fsbackend_delete_ok_of_absent k f i m' hm habs
    refine ⟨hok, ?_, ?_⟩
    · rw [hcontent, coll_setColl]
      simp [findById_removeById]
    · intro hothers
      have hres : resolveContent (FsBackend.deleteContent k f i).1.content i = none := by
        apply resolveContent_eq_none_of
        intro k'
        rw [hcontent, coll_setColl]
        by_cases hk : k' = k
        · simp [hk, findById_removeById]
        · simp [hk, hothers k' hk]
      simp [FsBackend.download, FsBackend.retrieve, hres, FileResponse.status]

/-- Witness for C4 (amended) at concrete inputs: deleting a material with
a blob-store reference reports success and its id then downloads as 404;
deleting a material whose filesystem blob is already absent also reports
success. -/
theorem c4_delete_blob_then_metadata_witness :
    (GridFS.deleteContent .material c4SampleG 1).2 = .ok "Material deleted successfully"
    ∧ (GridFS.download (GridFS.deleteContent .material c4SampleG 1).1 1).status = 404
    ∧ (FsBackend.deleteContent .material c4SampleF 1).2
        = .ok "Material deleted successfully" := by
  have h := c4_delete_blob_then_metadata .material c4SampleG c4SampleF 1 7
    c4SampleRecordG c4SampleRecordF
  have hothers : ∀ k', k' ≠ Kind.material →
      findById (c4SampleG.content.coll k') 1 = none := by
    intro k' hk'
    cases k' with
    | material => exact absurd rfl hk'
    | question => rfl
    | update => rfl
  have habs : ∀ p, jsStr c4SampleRecordF.filePath = some p →
      c4SampleF.fs.existsSync p = false := by
    intro p hp
    have hp' : some "uploads/b.pdf" = some p := hp
    cases hp'
    rfl
  exact ⟨(h.1 rfl rfl).1, (h.2.1 rfl rfl hothers).1, (h.2.2 rfl habs).1⟩

/-- Accounting of the bulk-insert loop: every item is counted as added,
as a duplicate, or silently dropped by its saving error. -/
theorem bulkRun_total (items : List People.BulkItem) (st : People.PersonStore) :
    (People.bulkRun st items).addedCount
      + (People.bulkRun st items).duplicates.length
      + (items.filter (fun it => it.saveError)).length = items.length := by
  induction items generalizing st with
  | nil => simp [People.bulkRun]
  | cons a rest ih =>
    by_cases he : a.saveError
    · simp only [People.bulkRun, he, if_true, List.filter_cons]
      have := ih st
      simp [he]
      omega
    · by_cases hmem : a.userId ∈ st
      · simp only [People.bulkRun, he, if_false, List.filter_cons]
        have := ih st
        simp [he, hmem]
        omega
      · simp only [People.bulkRun, he, if_false, List.filter_cons]
        have := ih (a.userId :: st)
        simp [he, hmem]
        omega

/-- The bulk-insert loop never removes anything from the store. -/
theorem bulkRun_store_mono (items : List People.BulkItem)
    (st : People.PersonStore) :
    ∀ x ∈ st, x ∈ (People.bulkRun st items).store := by
  induction items generalizing st with
  | nil =>
    intro x hx
    simpa [People.bulkRun] using hx
  | cons a rest ih =>
    intro x hx
    by_cases he : a.saveError
    · simpa [People.bulkRun, he] using ih st x hx
    · by_cases hmem : a.userId ∈ st
      · simpa [People.bulkRun, he, hmem] using ih st x hx
      · simp only [People.bulkRun, he, if_false]
        simp [hmem]
        exact ih (a.userId :: st) x (List.mem_cons_of_mem _ hx)

/-- Every item whose save does not error ends up stored (either it was
inserted, or its duplicate collision certifies it was already present). -/
theorem bulkRun_mem_store (items : List People.BulkItem)
    (st : People.PersonStore) :
    ∀ it ∈ items, it.saveError = false →
      it.userId ∈ (People.bulkRun st items).store := by
  induction items generalizing st with
  | nil =>
    intro it h
    cases h
  | cons a rest ih =>
    intro it hit herr
    rcases List.mem_cons.mp hit with rfl | hrest
    · by_cases hmem : it.userId ∈ st
      · simp only [People.bulkRun, herr, if_false, hmem, if_true]
        simpa using bulkRun_store_mono rest st it.userId hmem
      · simp only [People.bulkRun, herr, if_false]
        simp [hmem]
        exact bulkRun_store_mono rest (it.userId :: st) it.userId
          (List.mem_cons_self _ _)
    · by_cases he : a.saveError
      · simpa [People.bulkRun, he] using ih st it hrest herr
      · by_cases hmem : a.userId ∈ st
        · simpa [People.bulkRun, he, hmem] using ih st it hrest herr
        · simpa [People.bulkRun, he, hmem] using ih (a.userId :: st) it hrest herr

/-- With no injected save errors and pairwise-distinct `userId`s, the
duplicates list collects exactly the items whose `userId` was already
stored before the batch began. -/
theorem bulkRun_dups_count (items : List People.BulkItem)
    (st : People.PersonStore)
    (herr : ∀ it ∈ items, it.saveError = false)
    (hnd : (items.map People.BulkItem.userId).Nodup) :
    (People.bulkRun st items).duplicates.length
      = (items.filter (fun it => decide (it.userId ∈ st))).length := by
  induction items generalizing st with
  | nil => simp [People.bulkRun]
  | cons a rest ih =>
    have ha : a.saveError = false := herr a (List.mem_cons_self a rest)
    have herr' : ∀ it ∈ rest, it.saveError = false :=
      fun it h => herr it (List.mem_cons_of_mem _ h)
    have hcons : a.userId ∉ rest.map People.BulkItem.userId
        ∧ (rest.map People.BulkItem.userId).Nodup := by
      rw [List.map_cons, List.nodup_cons] at hnd
      exact hnd
    by_cases hmem : a.userId ∈ st
    · simp [People.bulkRun, ha, hmem, List.filter_cons, ih st herr' hcons.2]
    · have hcong : rest.filter
            (fun it => decide (it.userId = a.userId) || decide (it.userId ∈ st))
          = rest.filter (fun it => decide (it.userId ∈ st)) := by
        apply List.filter_congr
        intro it hit
        have hne : it.userId ≠ a.userId := by
          intro hq
          exact hcons.1 (hq ▸ List.mem_map_of_mem People.BulkItem.userId hit)
        simp [hne]
      simp [People.bulkRun, ha, hmem, List.filter_cons,
        ih (a.userId :: st) herr' hcons.2, hcong]

/-- C5: a bulk insert of N person records of which exactly K collide with
an already-stored `userId` (the batch itself having no internal
repetitions and no other backend failures) reports `success:true` with
`addedCount = N - K` and exactly K entries in the duplicates list, and
every non-colliding record is stored — one collision never aborts the
rest of the batch. -/
theorem c5_bulk_insert (store : People.PersonStore)
    (items : List People.BulkItem)
    (herr : ∀ it ∈ items, it.saveError = false)
    (hnd : (items.map People.BulkItem.userId).Nodup) :
    (People.bulkInsert store items).2.success = true
    ∧ (People.bulkInsert store items).2.status = 200
    ∧ (People.bulkInsert store items).2.addedCount
        = items.length - (items.filter (fun it => decide (it.userId ∈ store))).length
    ∧ (People.bulkInsert store items).2.duplicates.length
        = (items.filter (fun it => decide (it.userId ∈ store))).length
    ∧ ∀ it ∈ items, it.userId ∈ (People.bulkInsert store items).1 := by
  have hzero : (items.filter (fun it => it.saveError)).length = 0 := by
    have : items.filter (fun it => it.saveError) = [] := by
      rw [List.filter_eq_nil_iff]
      intro it hit
      simp [herr it hit]
    simp [this]
  have htotal := bulkRun_total items store
  have hdups := bulkRun_dups_count items store herr hnd
  refine ⟨rfl, rfl, ?_, ?_, ?_⟩
  · show (People.bulkRun store items).addedCount = _
    omega
  · exact hdups
  · intro it hit
    exact bulkRun_mem_store items store it hit (herr it hit)

/-- Witness for C5 at concrete inputs: three distinct records, one
colliding with the store, yield `addedCount = 2` and one duplicate. -/
theorem c5_bulk_insert_witness :
    (People.bulkInsert ["s1"] c5Items).2.addedCount
      = c5Items.length
        - (c5Items.filter (fun it => decide (it.userId ∈ (["s1"] : List String)))).length
    ∧ (People.bulkInsert ["s1"] c5Items).2.duplicates.length
      = (c5Items.filter (fun it => decide (it.userId ∈ (["s1"] : List String)))).length := by
  have h := c5_bulk_insert ["s1"] c5Items (by decide) (by decide)
  exact ⟨h.2.2.1, h.2.2.2.1⟩

/-- C6: a single person insert whose `userId` hits the unique constraint
is a soft failure — HTTP 200, `success:false`, a duplicate message — never
a 500, and the store is unchanged. -/
theorem c6_duplicate_soft_failure (label : String) (st : People.PersonStore)
    (it : People.BulkItem) (hdup : it.userId ∈ st)
    (herr : it.saveError = false) :
    (People.postPerson label st it).2.status = 200
    ∧ (People.postPerson label st it).2.success = false
    ∧ (People.postPerson label st it).2.message
        = some (label ++ " ID already exists")
    ∧ (People.postPerson label st it).2.status ≠ 500
    ∧ (People.postPerson label st it).1 = st := by
  simp [People.postPerson, herr, hdup]

/-- Witness for C6 at concrete inputs: re-posting an existing student id
answers 200 `success:false`. -/
theorem c6_duplicate_soft_failure_witness :
    (People.postPerson "Student" ["s1"] { userId := "s1" }).2.status = 200
    ∧ (People.postPerson "Student" ["s1"] { userId := "s1" }).2.success = false := by
  have h := c6_duplicate_soft_failure "Student" ["s1"] { userId := "s1" }
    (by decide) rfl
  exact ⟨h.1, h.2.1⟩

/-- C7: an upload request whose multipart body has no file part is
rejected as MissingFile — HTTP 400, `success:false` — and the server state
is unchanged in both implementations: multer stored nothing and the
handler returns before any record is constructed, so no blob write and no
metadata write occurs. -/
theorem c7_missing_file (k : Kind) (g : GridFS.GState) (f : FsBackend.FState)
    (body : UploadBody) :
    GridFS.uploadContent k g body none = (g, .missingFile)
    ∧ FsBackend.uploadContent k f body none = (f, .missingFile)
    ∧ UploadResult.missingFile.status = some 400
    ∧ UploadResult.missingFile.success = false :=
  ⟨rfl, rfl, rfl, rfl⟩

/-- Appending a record that satisfies exclusivity preserves the store
invariant. -/
theorem exclusiveInv_setColl_append (cs : ContentStore) (k : Kind)
    (r : ContentRecord) (hinv : ExclusiveInv cs)
    (hr : (jsStr r.fileName).isSome = true → exclusiveRef r) :
    ExclusiveInv (cs.setColl k (cs.coll k ++ [r])) := by
  intro k' x hx hname
  rw [coll_setColl] at hx
  by_cases hk : k' = k
  · rw [if_pos hk] at hx
    rcases List.mem_append.mp hx with hx | hx
    · exact hinv k x hx hname
    · have hxr : x = r := by simpa using hx
      exact hxr ▸ hr (hxr ▸ hname)
  · rw [if_neg hk] at hx
    exact hinv k' x hx hname

/-- Replacing one collection by a selection of its own records preserves
the store invariant. -/
theorem exclusiveInv_setColl_sub (cs : ContentStore) (k : Kind)
    (l : List ContentRecord) (hinv : ExclusiveInv cs)
    (hsub : ∀ x ∈ l, x ∈ cs.coll k) :
    ExclusiveInv (cs.setColl k l) := by
  intro k' x hx hname
  rw [coll_setColl] at hx
  by_cases hk : k' = k
  · rw [if_pos hk] at hx
    exact hinv k x (hsub x hx) hname
  · rw [if_neg hk] at hx
    exact hinv k' x hx hname

/-- A path under the uploads directory is never the empty string. -/
theorem uploads_path_ne_empty (s : String) :
    FsBackend.uploadsDir ++ "/" ++ s ≠ "" := by
  intro h
  have hd := congrArg String.data h
  simp [FsBackend.uploadsDir, String.data_append] at hd

/-- C8: every record the upload pipelines create with an attached file
carries exactly one blob-reference variant — the GridFS implementation
stores `fileId` with `filePath: null`, the filesystem implementation
stores `filePath` with no `fileId` — and upload and delete preserve the
store-wide exclusivity invariant (the retrieval endpoints are read-only in
this embedding: `download`/`view` are pure functions of the state and
write nothing). -/
theorem c8_fileref_exclusive (k : Kind) (g : GridFS.GState)
    (f : FsBackend.FState) (body : UploadBody) (file : UploadFile) (i : Nat) :
    (∀ g' r, GridFS.uploadContent k g body (some file) = (g', .created r) →
        r.fileId.isSome = true ∧ r.filePath = none ∧ exclusiveRef r)
    ∧ (∀ f' r, FsBackend.uploadContent k f body (some file) = (f', .created r) →
        r.fileId = none ∧ (jsStr r.filePath).isSome = true ∧ exclusiveRef r)
    ∧ (ExclusiveInv g.content →
        ExclusiveInv (GridFS.uploadContent k g body (some file)).1.content)
    ∧ (ExclusiveInv f.content →
        ExclusiveInv (FsBackend.uploadContent k f body (some file)).1.content)
    ∧ (ExclusiveInv g.content →
        ExclusiveInv (GridFS.deleteContent k g i).1.content)
    ∧ (ExclusiveInv f.content →
        ExclusiveInv (FsBackend.deleteContent k f i).1.content) := by
  have hfspath : (jsStr (some (FsBackend.uploadsDir ++ "/"
      ++ FsBackend.diskFilename f.nextId file.originalname))).isSome = true := by
    simp [jsStr, uploads_path_ne_empty]
  refine ⟨?_, ?_, ?_, ?_, ?_, ?_⟩
  · intro g' r h
    by_cases hacc : fileFilterAccepts file.originalname
    · by_cases hsize : file.bytes.length ≤ fileSizeLimit
      · simp only [GridFS.uploadContent] at h
        rw [if_pos hacc, if_pos hsize] at h
        rw [Prod.mk.injEq] at h
        have hr := h.2
        simp only [UploadResult.created.injEq] at hr
        subst hr
        exact ⟨rfl, rfl, Or.inl ⟨rfl, rfl⟩⟩
      · simp only [GridFS.uploadContent] at h
        rw [if_pos hacc, if_neg hsize] at h
        have hc := congrArg Prod.snd h
        simp at hc
    · simp only [GridFS.uploadContent] at h
      rw [if_neg hacc] at h
      have hc := congrArg Prod.snd h
      simp at hc
  · intro f' r h
    by_cases hacc : fileFilterAccepts file.originalname
    · by_cases hsize : file.bytes.length ≤ fileSizeLimit
      · simp only [FsBackend.uploadContent] at h
        rw [if_pos hacc, if_pos hsize] at h
        rw [Prod.mk.injEq] at h
        have hr := h.2
        simp only [UploadResult.created.injEq] at hr
        subst hr
        exact ⟨rfl, hfspath, Or.inr ⟨rfl, hfspath⟩⟩
      · simp only [FsBackend.uploadContent] at h
        rw [if_pos hacc, if_neg hsize] at h
        have hc := congrArg Prod.snd h
        simp at hc
    · simp only [FsBackend.uploadContent] at h
      rw [if_neg hacc] at h
      have hc := congrArg Prod.snd h
      simp at hc
  · intro hinv
    by_cases hacc : fileFilterAccepts file.originalname
    · by_cases hsize : file.bytes.length ≤ fileSizeLimit
      · simp only [GridFS.uploadContent]
        rw [if_pos hacc, if_pos hsize]
        exact exclusiveInv_setColl_append g.content k _ hinv
          (fun _ => Or.inl ⟨rfl, rfl⟩)
      · simp only [GridFS.uploadContent]
        rw [if_pos hacc, if_neg hsize]
        exact hinv
    · simp only [GridFS.uploadContent]
      rw [if_neg hacc]
      exact hinv
  · intro hinv
    by_cases hacc : fileFilterAccepts file.originalname
    · by_cases hsize : file.bytes.length ≤ fileSizeLimit
      · simp only [FsBackend.uploadContent]
        rw [if_pos hacc, if_pos hsize]
        exact exclusiveInv_setColl_append f.content k _ hinv
          (fun _ => Or.inr ⟨rfl, hfspath⟩)
      · simp only [FsBackend.uploadContent]
        rw [if_pos hacc, if_neg hsize]
        exact hinv
    · simp only [FsBackend.uploadContent]
      rw [if_neg hacc]
      exact hinv
  · intro hinv
    cases hm : findById (g.content.coll k) i with
    | none =>
      have hc : (GridFS.deleteContent k g i).1.content = g.content := by
        simp [GridFS.deleteContent, hm]
      rw [hc]
      exact hinv
    | some m =>
      rw [gridfs_deleteContent_content k g i m hm]
      exact exclusiveInv_setColl_sub g.content k _ hinv
        (fun x hx => (List.mem_filter.mp hx).1)
  · intro hinv
    rcases fsbackend_deleteContent_content_or k f i with hc | hc
    · rw [hc]
      exact hinv
    · rw [hc]
      exact exclusiveInv_setColl_sub f.content k _ hinv
        (fun x hx => (List.mem_filter.mp hx).1)

/-- Witness for C8 at concrete inputs: the invariant holds of the empty
store and is preserved by a concrete upload. -/
theorem c8_fileref_exclusive_witness :
    ExclusiveInv ({} : ContentStore)
    ∧ ExclusiveInv (GridFS.uploadContent .material {} {} (some c8File)).1.content := by
  have h0 : ExclusiveInv ({} : ContentStore) := by
    intro k r hr
    cases k <;> simp [ContentStore.coll] at hr
  exact ⟨h0, (c8_fileref_exclusive .material {} {} {} c8File 0).2.2.1 h0⟩

/-- C9: in a bulk person insert, an item whose save fails for a reason
other than the unique constraint is silently dropped — counted neither in
`addedCount` nor in the duplicates list — while the response still reports
`success:true`; hence `addedCount + duplicates.length` can be strictly
below the number of submitted records. -/
theorem c9_bulk_silent_drop (st : People.PersonStore)
    (items : List People.BulkItem) :
    (People.bulkInsert st items).2.success = true
    ∧ (People.bulkInsert st items).2.status = 200
    ∧ (People.bulkInsert st items).2.addedCount
        + (People.bulkInsert st items).2.duplicates.length
        + (items.filter (fun it => it.saveError)).length = items.length
    ∧ ((items.filter (fun it => it.saveError)).length ≠ 0 →
        (People.bulkInsert st items).2.addedCount
          + (People.bulkInsert st items).2.duplicates.length < items.length) := by
  have h := bulkRun_total items st
  have ha : (People.bulkInsert st items).2.addedCount
      = (People.bulkRun st items).addedCount := rfl
  have hd : (People.bulkInsert st items).2.duplicates
      = (People.bulkRun st items).duplicates := rfl
  refine ⟨rfl, rfl, ?_, ?_⟩
  · rw [ha, hd]
    exact h
  · intro hne
    rw [ha, hd]
    omega

/-- Witness for C9 at concrete inputs: a three-item batch with one
erroring save still answers `success:true` while accounting for only two
items. -/
theorem c9_bulk_silent_drop_witness :
    (People.bulkInsert [] c9Items).2.success = true
    ∧ (People.bulkInsert [] c9Items).2.addedCount
        + (People.bulkInsert [] c9Items).2.duplicates.length < c9Items.length := by
  have h := c9_bulk_silent_drop [] c9Items
  exact ⟨h.1, h.2.2.2 (by decide)⟩

/-- C10: deleting an individual person record by a `userId` not in the
store answers HTTP 200 with `success:false` and a "... not found" message
— not a 404 — while a present `userId` is removed and reported with
`success:true` and `deletedCount = 1` (`deleteOne` removes the single
matching document). A falsy `userId` parameter is a 400. -/
theorem c10_delete_individual (label : String) (st : People.PersonStore)
    (u : String) (hu : u ≠ "") :
    (u ∉ st → People.deleteIndividual label st (some u)
        = (st, { status := 200, success := false,
                 message := some (label ++ " not found") }))
    ∧ (u ∈ st → People.deleteIndividual label st (some u)
        = (st.erase u, { status := 200, success := true,
                         deletedCount := some 1 }))
    ∧ (People.deleteIndividual label st (some u)).2.status = 200
    ∧ (People.deleteIndividual label st (some u)).2.status ≠ 404
    ∧ People.deleteIndividual label st none
        = (st, { status := 400, success := false,
                 message := some "User ID is required" }) := by
  have hjs : jsStr (some u) = some u := by simp [jsStr, hu]
  refine ⟨?_, ?_, ?_, ?_, rfl⟩
  · intro hmem
    simp [People.deleteIndividual, hjs, hmem]
  · intro hmem
    simp [People.deleteIndividual, hjs, hmem]
  · by_cases hmem : u ∈ st <;> simp [People.deleteIndividual, hjs, hmem]
  · by_cases hmem : u ∈ st <;> simp [People.deleteIndividual, hjs, hmem]

/-- Witness for C10 at concrete inputs: an absent id answers 200
`success:false` "not found"; a present id is removed with
`deletedCount = 1`. -/
theorem c10_delete_individual_witness :
    People.deleteIndividual "Student" ["y"] (some "x")
      = (["y"], { status := 200, success := false,
                  message := some "Student not found" })
    ∧ People.deleteIndividual "Student" ["x", "y"] (some "x")
      = (["y"], { status := 200, success := true, deletedCount := some 1 }) := by
  have h1 := c10_delete_individual "Student" ["y"] "x" (by decide)
  have h2 := c10_delete_individual "Student" ["x", "y"] "x" (by decide)
  exact ⟨h1.1 (by decide), h2.2.1 (by decide)⟩

end StudentPortal
